import Mathlib

/-!
Verification of the live-acquisition core of `exa_spim_view.py`.

The Python file is shallowly embedded: each method that the claims concern is
translated into a Lean definition, either as a pure function on an explicit
state, or as the finite trace of hardware/lock/emission events that one call
(or one finite worker run) performs.  Locks are identified by category, as in
the source (`camera_lock`, `daq_lock`, `scanning_stage_lock`,
`tiling_stage_lock`).
-/

namespace ExaSpim

/-- The four category locks created by `create_device_widgets`
(`setattr(self, f'\x7bdevice_type\x7d_lock', Lock())`). -/
inductive LockId
  | camera
  | daq
  | scanningStage
  | tilingStage
deriving DecidableEq, Repr

/-- One observable step of the program: lock operations, hardware calls and
emissions, in the order the Python statements execute them. -/
inductive Event
  | acquire (l : LockId)
  | release (l : LockId)
  | workerCreate (cam : String)
  | connectYielded
  | connectFinished
  | workerStart
  | prepare (cam : String)
  | startCam (cam : String) (frames : Option Int)
  | grabFrame (cam : String) (i : Nat)
  | emitFrame (cam : String) (i : Nat)
  | abortCam (cam : String)
  | generateWaveforms (daq : String) (kind : String) (wl : String)
  | writeAoWaveforms (daq : String)
  | writeDoWaveforms (daq : String)
  | startAllDaq (daq : String)
  | stopAllDaq (daq : String)
  | readPosition (stage : String)
  | emitPosition (stage : String)
deriving DecidableEq, Repr

/-- How an event changes the hold-count of lock `l`. -/
def lockDelta (l : LockId) (h : Nat) : Event → Nat
  | .acquire l' => if l' = l then h + 1 else h
  | .release l' => if l' = l then h - 1 else h
  | _ => h

/-- Hold-count of lock `l` after running a trace from hold-count `h`. -/
def heldFrom (l : LockId) (h : Nat) : List Event → Nat
  | [] => h
  | e :: tr => heldFrom l (lockDelta l h e) tr

/-- Hold-count of lock `l` after a trace started with the lock free. -/
def heldAfter (tr : List Event) (l : LockId) : Nat := heldFrom l 0 tr

/-- One iteration of the `while i < frames` loop body of `grab_frames`:
`with self.camera_lock: frame = ...grab_frame(), camera_name` then, outside
the `with` block, `yield frame` and `i += 1`. -/
def grabFramesIter (cam : String) (i : Nat) : List Event :=
  [.acquire .camera, .grabFrame cam i, .release .camera, .emitFrame cam i]

/-- The loop of `grab_frames` from counter `i` with `r` iterations left. -/
def grabFramesLoop (cam : String) (i : Nat) : Nat → List Event
  | 0 => []
  | r + 1 => grabFramesIter cam i ++ grabFramesLoop cam (i + 1) r

/-- Trace of a complete `grab_frames(camera_name, frames)` run for a finite
integer target: `i = 0; while i < frames: ...; i += 1` executes
`max frames 0` iterations (`Int.toNat`). -/
def grabFramesTrace (cam : String) (frames : Int) : List Event :=
  grabFramesLoop cam 0 frames.toNat

/-- Trace of `dismantle_live(camera_name)`: abort under the camera lock, then
`stop_all` on every daq under the daq lock. -/
def dismantleLiveTrace (cam : String) (daqs : List String) : List Event :=
  [.acquire .camera, .abortCam cam, .release .camera, .acquire .daq]
    ++ daqs.map Event.stopAllDaq ++ [.release .daq]

/-- Body of the `for name, daq in self.instrument.daqs.items()` loop inside
`setup_live`'s `with self.daq_lock` block. -/
def setupLiveDaqBlock (wl : String) (d : String) : List Event :=
  [.generateWaveforms d "ao" wl, .generateWaveforms d "do" wl,
   .writeAoWaveforms d, .writeDoWaveforms d, .startAllDaq d]

/-- Trace of `setup_live(camera_name, frames)`: create the worker, wire
`yielded` to `update_layer` and `finished` to `dismantle_live`, start it; then
`prepare()` and `start(frames)` under the camera lock; then waveform
generation, loading and `start_all()` for every daq under the daq lock. -/
def setupLiveTrace (cam : String) (frames : Option Int) (daqs : List String)
    (wl : String) : List Event :=
  [.workerCreate cam, .connectYielded, .connectFinished, .workerStart]
    ++ [.acquire .camera, .prepare cam, .startCam cam frames, .release .camera]
    ++ [.acquire .daq] ++ daqs.flatMap (setupLiveDaqBlock wl) ++ [.release .daq]

/-- The complete life of a finite live session for one worker: the worker's
emissions, then — because `setup_live` connects this worker's `finished`
signal to `dismantle_live` exactly once — one run of the teardown. -/
def finiteSessionTrace (cam : String) (frames : Int) (daqs : List String) : List Event :=
  grabFramesTrace cam frames ++ dismantleLiveTrace cam daqs

/-- Recognises a frame emission (`yield frame`). -/
def isEmitFrameB : Event → Bool
  | .emitFrame _ _ => true
  | _ => false

/-- Recognises the blocking hardware grab. -/
def isGrabFrameB : Event → Bool
  | .grabFrame _ _ => true
  | _ => false

/-- Recognises a camera `abort()` call. -/
def isAbortB : Event → Bool
  | .abortCam _ => true
  | _ => false

/-- Recognises a daq `stop_all()` call. -/
def isStopAllB : Event → Bool
  | .stopAllDaq _ => true
  | _ => false

/-- Recognises a lock acquire or release. -/
def isLockEventB : Event → Bool
  | .acquire _ => true
  | .release _ => true
  | _ => false

/-- Checks, along a trace, that every blocking grab happens with the camera
lock held exactly once and every frame emission happens with the camera lock
free; `h` is the current camera hold-count. -/
def emitDiscipline (h : Nat) : List Event → Bool
  | [] => true
  | e :: tr =>
    (match e with
      | .grabFrame _ _ => h == 1
      | .emitFrame _ _ => h == 0
      | _ => true)
      && emitDiscipline (lockDelta .camera h e) tr

/-- Checks that every blocking grab is immediately followed by the release of
the camera lock (the `with` block ends right after the grab, before `yield`). -/
def releaseAfterGrab : List Event → Bool
  | [] => true
  | [e] => !(isGrabFrameB e)
  | e :: e' :: tr =>
    (if isGrabFrameB e then decide (e' = Event.release LockId.camera) else true)
      && releaseAfterGrab (e' :: tr)

/-- Checks that the camera lock and the daq (signal-generator) lock are never
held at the same instant; `c` and `d` are the current hold-counts. -/
def noDoubleHold (c d : Nat) : List Event → Bool
  | [] => true
  | e :: tr =>
    let c' := lockDelta .camera c e
    let d' := lockDelta .daq d e
    (!(c' != 0 && d' != 0)) && noDoubleHold c' d' tr

/-- Checks that each hardware call happens under its own category lock and not
under the other one: `prepare`/`start`/`abort` with the camera lock held (daq
lock free), waveform and `start_all`/`stop_all` calls with the daq lock held
(camera lock free). -/
def opsUnderLock (c d : Nat) : List Event → Bool
  | [] => true
  | e :: tr =>
    (match e with
      | .prepare _ => c == 1 && d == 0
      | .startCam _ _ => c == 1 && d == 0
      | .abortCam _ => c == 1 && d == 0
      | .generateWaveforms _ _ _ => d == 1 && c == 0
      | .writeAoWaveforms _ => d == 1 && c == 0
      | .writeDoWaveforms _ => d == 1 && c == 0
      | .startAllDaq _ => d == 1 && c == 0
      | .stopAllDaq _ => d == 1 && c == 0
      | _ => true)
      && opsUnderLock (lockDelta .camera c e) (lockDelta .daq d e) tr

/-! ### The stage position poller (`grab_stage_positions`)

The `with` statement is `with self.scanning_stage_lock and self.tiling_stage_lock:`.
Python first evaluates the expression `a and b` — which returns `a` when `a`
is falsy and `b` otherwise — and then enters the single resulting object as
the context manager. -/

/-- A Python object reference as it appears in the poller's `with` statement:
an initialised `threading.Lock` (always truthy) or `None`. -/
inductive PyLockRef
  | lockRef (l : LockId)
  | pyNone
deriving DecidableEq, Repr

/-- Python truthiness of such a reference. -/
def PyLockRef.truthy : PyLockRef → Bool
  | .lockRef _ => true
  | .pyNone => false

/-- Python `a and b`: `a` when `a` is falsy, otherwise `b`. -/
def pyAnd (a b : PyLockRef) : PyLockRef := if a.truthy then b else a

/-- The locks actually entered by the poller's `with` statement: the single
context manager that `scanning_stage_lock and tiling_stage_lock` evaluates to. -/
def pollerAcquiredLocks : List LockId :=
  match pyAnd (.lockRef .scanningStage) (.lockRef .tilingStage) with
  | .lockRef l => [l]
  | .pyNone => []

/-- One stage's step in the poller's `for` loop: enter the `with` statement,
read `stage.position`, leave the `with` statement, then `yield name, position`
outside it. -/
def stagePollIter (s : String) : List Event :=
  pollerAcquiredLocks.map Event.acquire ++ [.readPosition s]
    ++ pollerAcquiredLocks.map Event.release ++ [.emitPosition s]

/-- One full cycle of the poller over the combined
`\x7b**scanning_stages, **tiling_stages\x7d` dictionary. -/
def stagePollCycle (stages : List String) : List Event :=
  stages.flatMap stagePollIter

/-! ### The camera-widget state machine (C2)

`setup_camera_widgets` wires, for one camera: the snapshot button's `pressed`
to `disable_button(button)` (disable now, re-enable after 1000 ms) and to
`setup_live(camera, 1)`; the live button's `pressed` to `disable_button`, to
`setup_live(camera)` and to `toggle_live_button`, which swaps the button
between start mode (`setup_live`) and stop mode (`grab_frames_worker.quit`).
A disabled Qt button emits no `pressed` signal, so a press during the cooldown
is a no-op.  `setup_live` always creates and starts a fresh worker, storing it
in `self.grab_frames_worker`; nothing stops a worker that is already running,
and `quit` only requests cancellation — the running worker actually ends when
its loop observes it, modelled as the separate environment action
`finishWorker`. -/

structure GuiState where
  now : Nat
  snapshotEnabledAt : Nat
  liveEnabledAt : Nat
  liveIsStop : Bool
  activeWorkers : Nat
deriving DecidableEq, Repr

inductive GuiAction
  | advance (dt : Nat)
  | pressSnapshot
  | pressLive
  | finishWorker
deriving DecidableEq, Repr

/-- One state transition of the camera-widget GUI for a single camera. -/
def stepGui (s : GuiState) : GuiAction → GuiState
  | .advance dt => { s with now := s.now + dt }
  | .pressSnapshot =>
    if s.now < s.snapshotEnabledAt then s
    else { s with snapshotEnabledAt := s.now + 1000,
                  activeWorkers := s.activeWorkers + 1 }
  | .pressLive =>
    if s.now < s.liveEnabledAt then s
    else if s.liveIsStop then
      { s with liveEnabledAt := s.now + 1000, liveIsStop := false }
    else
      { s with liveEnabledAt := s.now + 1000, liveIsStop := true,
               activeWorkers := s.activeWorkers + 1 }
  | .finishWorker =>
    if s.activeWorkers == 0 then s
    else { s with activeWorkers := s.activeWorkers - 1 }

/-- Initial state: no worker, both buttons enabled, live button in start mode. -/
def initGui : GuiState :=
  { now := 0, snapshotEnabledAt := 0, liveEnabledAt := 0,
    liveIsStop := false, activeWorkers := 0 }

/-- Run a sequence of GUI/environment actions from the initial state. -/
def runGui (acts : List GuiAction) : GuiState :=
  acts.foldl stepGui initGui

/-! ### Controller state and `dismantle_live` (C5) -/

/-- The controller attributes relevant to the worker handle:
`self.grab_frames_worker`, `None` until the first `setup_live`. -/
structure ControllerState where
  grab_frames_worker : Option Nat
deriving DecidableEq, Repr

/-- `dismantle_live(camera_name)` as a state transformer plus trace: its body
only calls `abort()` under the camera lock and `stop_all()` on every daq under
the daq lock; it assigns no attribute of `self`, so the controller state is
returned unchanged. -/
def dismantle_live (cam : String) (daqs : List String) (s : ControllerState) :
    ControllerState × List Event :=
  (s, dismantleLiveTrace cam daqs)

/-! ### The device property bridge (`device_property_changed`, C7) -/

/-- A device as the bridge sees it: `attrs` is what `getattr(device, k)`
currently reports, and `setAttr pre k v` is the full attribute state after
`setattr(device, k, v)` runs on pre-write state `pre` — arbitrary, so the
device may clamp `v` and side-effect other attributes. -/
structure PyDevice where
  attrs : String → Int
  setAttr : (String → Int) → String → Int → (String → Int)

/-- A device widget: `tracked` is `widget.property_widgets.keys()` (iteration
order), `values` what `getattr(widget, k)` reports. -/
structure DevWidget where
  tracked : List String
  values : String → Int

/-- `setattr(widget, k, v)`. -/
def writeWidget (w : DevWidget) (k : String) (v : Int) : DevWidget :=
  { w with values := fun k' => if k' = k then v else w.values k' }

/-- `name.split('.')[0]`. -/
def headName (name : String) : String := (name.splitOn ".").headD name

/-- `device_property_changed(name, device, widget, ...)` without the lock
bookkeeping (the whole body runs under the device category's lock): read the
edited value from the widget, `setattr` it onto the device, then re-read every
tracked attribute from the device and `setattr` it back onto the widget. -/
def device_property_changed (name : String) (dev : PyDevice) (w : DevWidget) :
    PyDevice × DevWidget :=
  let attr := headName name
  let value := w.values attr
  let postAttrs := dev.setAttr dev.attrs attr value
  let dev' : PyDevice := { dev with attrs := postAttrs }
  let w' := w.tracked.foldl (fun wi k => writeWidget wi k (postAttrs k)) w
  (dev', w')

/-- A concrete camera-style device for witnessing: writes to `exposure` are
clamped to at most 100, and any write halves `frame_rate` as a side effect. -/
def clampDevice : PyDevice :=
  { attrs := fun k => if k = "exposure" then 10 else if k = "frame_rate" then 50 else 0
    setAttr := fun pre k v => fun k' =>
      if k' = "frame_rate" then pre "frame_rate" / 2
      else if k' = k then (if k = "exposure" then min v 100 else v)
      else pre k' }

/-- A widget tracking the two attributes of `clampDevice`, with `exposure`
just edited to 500 on screen. -/
def clampWidget : DevWidget :=
  { tracked := ["exposure", "frame_rate"]
    values := fun k => if k = "exposure" then 500 else 0 }

/-! ### The capability scan (`scan_for_properties`, C8) -/

/-- A class attribute as `getattr(type(device), attr_name, None)` sees it:
either a `property` object — with or without a setter (`fset is not None`) —
or some other attribute (method, plain field). -/
inductive ClassAttr
  | prop (hasSetter : Bool)
  | plainAttr
deriving DecidableEq, Repr

/-- `isinstance(attr, property)`. -/
def isPropertyB : Option ClassAttr → Bool
  | some (.prop _) => true
  | _ => false

/-- A Python object for scanning: `dirNames` is `dir(device)`, `classAttr`
the class-level attribute of each name, `instValue` what
`getattr(device, name, None)` reports. -/
structure PyObject where
  dirNames : List String
  classAttr : String → Option ClassAttr
  instValue : String → Option Int

/-- `scan_for_properties(device)`: walk `dir(device)` and collect every name
whose class attribute is a `property` — the `attr.fset is not None` filter is
commented out in the source, so no setter check happens. -/
def scan_for_properties (device : PyObject) : List (String × Option Int) :=
  device.dirNames.foldl
    (fun d name =>
      if isPropertyB (device.classAttr name) then d ++ [(name, device.instValue name)]
      else d)
    []

/-- A device whose class carries one read-only property `position`
(getter only, `fset is None`) reporting 5, and an ordinary method `move`. -/
def roDevice : PyObject :=
  { dirNames := ["move", "position"]
    classAttr := fun n =>
      if n = "position" then some (.prop false)
      else if n = "move" then some .plainAttr
      else none
    instValue := fun n => if n = "position" then some 5 else none }

/-! ### The presentation sink (`update_layer`, C9) -/

/-- One napari layer: display name and last-rendered image buffer
(the buffer contents are opaque to the sink, modelled as `Int`). -/
structure Layer where
  name : String
  data : Int
deriving DecidableEq, Repr

/-- The f-string key `"Video \x7bcamera_name\x7d \x7bself.livestream_wavelength\x7d"`. -/
def layerKey (cam wl : String) : String := "Video " ++ cam ++ " " ++ wl

/-- `self.viewer.layers[key]`: the layer of that name, or a `KeyError`. -/
def getLayerData (layers : List Layer) (key : String) : Option Int :=
  (layers.find? (fun l => l.name = key)).map Layer.data

/-- The `try` body of `update_layer`: index the layer list by name and update
its buffer in place; raises `KeyError` (modelled as `Except.error ()`) when no
layer has that name. -/
def tryUpdateExisting (layers : List Layer) (image : Int) (key : String) :
    Except Unit (List Layer) :=
  match layers.find? (fun l => l.name = key) with
  | some _ => .ok (layers.map fun l => if l.name = key then { l with data := image } else l)
  | none => .error ()

/-- `update_layer(args)` for `args = (image, camera_name)`: try the in-place
update; on `KeyError`, `viewer.add_image` appends a new layer under the same
key.  Total — the only failure of the `try` body is the `KeyError` the
`except` clause consumes. -/
def update_layer (layers : List Layer) (image : Int) (cam wl : String) : List Layer :=
  match tryUpdateExisting layers image (layerKey cam wl) with
  | .ok ls => ls
  | .error () => layers ++ [⟨layerKey cam wl, image⟩]

/-! ## Helper lemmas -/

theorem heldFrom_append (l : LockId) (h : Nat) (a b : List Event) :
    heldFrom l h (a ++ b) = heldFrom l (heldFrom l h a) b := by
  induction a generalizing h with
  | nil => rfl
  | cons e a ih => simp [heldFrom, ih]

theorem filter_emitAbort_grabFramesLoop (cam : String) (i r : Nat) :
    (grabFramesLoop cam i r).filter (fun e => isEmitFrameB e || isAbortB e)
      = (List.range' i r).map (Event.emitFrame cam) := by
  induction r generalizing i with
  | zero => rfl
  | succ r ih =>
    show (grabFramesIter cam i ++ grabFramesLoop cam (i + 1) r).filter _ = _
    rw [List.filter_append, ih, List.range'_succ, List.map_cons]
    rfl

theorem emitAbort_filter_stopAlls (daqs : List String) :
    (daqs.map Event.stopAllDaq).filter (fun e => isEmitFrameB e || isAbortB e) = [] := by
  induction daqs with
  | nil => rfl
  | cons d ds ih => simp [List.filter_cons, isEmitFrameB, isAbortB, ih]

theorem countP_abort_stopAlls (daqs : List String) :
    (daqs.map Event.stopAllDaq).countP isAbortB = 0 := by
  induction daqs with
  | nil => rfl
  | cons d ds ih => simp [List.countP_cons, isAbortB, ih]

theorem countP_stopAll_stopAlls (daqs : List String) :
    (daqs.map Event.stopAllDaq).countP isStopAllB = daqs.length := by
  induction daqs with
  | nil => rfl
  | cons d ds ih => simp [List.countP_cons, isStopAllB, ih]

theorem countP_abort_grabFramesLoop (cam : String) (i r : Nat) :
    (grabFramesLoop cam i r).countP isAbortB = 0 := by
  induction r generalizing i with
  | zero => rfl
  | succ r ih => simp [grabFramesLoop, grabFramesIter, List.countP_cons, isAbortB, ih]

theorem countP_stopAll_grabFramesLoop (cam : String) (i r : Nat) :
    (grabFramesLoop cam i r).countP isStopAllB = 0 := by
  induction r generalizing i with
  | zero => rfl
  | succ r ih => simp [grabFramesLoop, grabFramesIter, List.countP_cons, isStopAllB, ih]

theorem emitDiscipline_grabFramesLoop (cam : String) (i r : Nat) :
    emitDiscipline 0 (grabFramesLoop cam i r) = true := by
  induction r generalizing i with
  | zero => rfl
  | succ r ih =>
    simp [grabFramesLoop, grabFramesIter, emitDiscipline, lockDelta, ih]

theorem releaseAfterGrab_cons_nongrab (e : Event) (he : isGrabFrameB e = false)
    (L : List Event) : releaseAfterGrab (e :: L) = releaseAfterGrab L := by
  cases L with
  | nil => simp [releaseAfterGrab, he]
  | cons e' t => simp [releaseAfterGrab, he]

theorem releaseAfterGrab_cons_grab_rel (cam : String) (i : Nat) (L : List Event) :
    releaseAfterGrab (Event.grabFrame cam i :: Event.release LockId.camera :: L)
      = releaseAfterGrab (Event.release LockId.camera :: L) := by
  simp [releaseAfterGrab, isGrabFrameB]

theorem releaseAfterGrab_grabFramesLoop (cam : String) (i r : Nat) :
    releaseAfterGrab (grabFramesLoop cam i r) = true := by
  induction r generalizing i with
  | zero => rfl
  | succ r ih =>
    show releaseAfterGrab
      (.acquire .camera :: .grabFrame cam i :: .release .camera :: .emitFrame cam i ::
        grabFramesLoop cam (i + 1) r) = true
    rw [releaseAfterGrab_cons_nongrab (Event.acquire LockId.camera) rfl,
      releaseAfterGrab_cons_grab_rel cam i,
      releaseAfterGrab_cons_nongrab (Event.release LockId.camera) rfl,
      releaseAfterGrab_cons_nongrab (Event.emitFrame cam i) rfl, ih]

theorem heldFrom_camera_grabFramesLoop (cam : String) (i r : Nat) :
    heldFrom .camera 0 (grabFramesLoop cam i r) = 0 := by
  induction r generalizing i with
  | zero => rfl
  | succ r ih => simp [grabFramesLoop, grabFramesIter, heldFrom, lockDelta, ih]

/-! ## Claims about the Frame Acquisition Worker -/

/-- Claim C1: For every finite target count `N`, a worker run emits exactly `N`
frame events, strictly ordered (frame `i` before frame `i+1`), and only then
does the teardown (one camera `abort()` plus one `stop_all()` per daq) run,
exactly once; the snapshot case is the instance `N = 1`. -/
theorem grab_frames_finite_session_emits_exactly_N (cam : String) (n : Nat)
    (daqs : List String) :
    (finiteSessionTrace cam n daqs).filter (fun e => isEmitFrameB e || isAbortB e)
        = (List.range n).map (Event.emitFrame cam) ++ [Event.abortCam cam] ∧
    (finiteSessionTrace cam n daqs).countP isAbortB = 1 ∧
    (finiteSessionTrace cam n daqs).countP isStopAllB = daqs.length := by
  unfold finiteSessionTrace grabFramesTrace
  have ht : ((n : Int)).toNat = n := Int.toNat_natCast n
  rw [ht]
  refine ⟨?_, ?_, ?_⟩
  · rw [List.filter_append, filter_emitAbort_grabFramesLoop, List.range_eq_range']
    have hd : (dismantleLiveTrace cam daqs).filter (fun e => isEmitFrameB e || isAbortB e)
        = [Event.abortCam cam] := by
      unfold dismantleLiveTrace
      rw [List.filter_append, List.filter_append, emitAbort_filter_stopAlls]
      rfl
    rw [hd]
  · rw [List.countP_append, countP_abort_grabFramesLoop]
    unfold dismantleLiveTrace
    rw [List.countP_append, List.countP_append, countP_abort_stopAlls]
    rfl
  · rw [List.countP_append, countP_stopAll_grabFramesLoop]
    unfold dismantleLiveTrace
    rw [List.countP_append, List.countP_append, countP_stopAll_stopAlls]
    simp [List.countP_cons, isStopAllB]

/-- Claim C6: In every iteration of the worker loop, the camera lock is held
(count 1) during the blocking grab, released immediately after the grab, and
every frame emission happens with the camera lock free (count 0); the whole
run also ends with the lock free. -/
theorem grab_frames_emits_outside_camera_lock (cam : String) (frames : Int) :
    emitDiscipline 0 (grabFramesTrace cam frames) = true ∧
    releaseAfterGrab (grabFramesTrace cam frames) = true ∧
    heldAfter (grabFramesTrace cam frames) .camera = 0 := by
  refine ⟨emitDiscipline_grabFramesLoop cam 0 frames.toNat,
    releaseAfterGrab_grabFramesLoop cam 0 frames.toNat,
    heldFrom_camera_grabFramesLoop cam 0 frames.toNat⟩

/-- Claim C10: For a target frame count `≤ 0` the worker loop body never runs:
no frame is emitted and the camera lock is never acquired by the worker, yet
the teardown wired to the worker's `finished` signal still runs exactly once. -/
theorem grab_frames_nonpositive_no_emission (cam : String) (frames : Int)
    (daqs : List String) (h : frames ≤ 0) :
    grabFramesTrace cam frames = [] ∧
    finiteSessionTrace cam frames daqs = dismantleLiveTrace cam daqs ∧
    (finiteSessionTrace cam frames daqs).countP isAbortB = 1 ∧
    (finiteSessionTrace cam frames daqs).countP isStopAllB = daqs.length := by
  have ht : frames.toNat = 0 := Int.toNat_of_nonpos h
  have hz : grabFramesTrace cam frames = [] := by
    unfold grabFramesTrace
    rw [ht]
    rfl
  refine ⟨hz, ?_, ?_, ?_⟩
  · unfold finiteSessionTrace
    rw [hz, List.nil_append]
  · unfold finiteSessionTrace
    rw [hz, List.nil_append]
    unfold dismantleLiveTrace
    rw [List.countP_append, List.countP_append, countP_abort_stopAlls]
    rfl
  · unfold finiteSessionTrace
    rw [hz, List.nil_append]
    unfold dismantleLiveTrace
    rw [List.countP_append, List.countP_append, countP_stopAll_stopAlls]
    simp [List.countP_cons, isStopAllB]

/-! ## Lock-discipline lemmas for `setup_live` and `dismantle_live` -/

theorem noDoubleHold_append (c d : Nat) (a b : List Event) :
    noDoubleHold c d (a ++ b)
      = (noDoubleHold c d a && noDoubleHold (heldFrom .camera c a) (heldFrom .daq d a) b) := by
  induction a generalizing c d with
  | nil => simp [noDoubleHold, heldFrom]
  | cons e a ih => simp [noDoubleHold, heldFrom, ih, Bool.and_assoc]

theorem opsUnderLock_append (c d : Nat) (a b : List Event) :
    opsUnderLock c d (a ++ b)
      = (opsUnderLock c d a && opsUnderLock (heldFrom .camera c a) (heldFrom .daq d a) b) := by
  induction a generalizing c d with
  | nil => simp [opsUnderLock, heldFrom]
  | cons e a ih => simp [opsUnderLock, heldFrom, ih, Bool.and_assoc]

theorem heldFrom_camera_daqBlock (wl d : String) (h : Nat) :
    heldFrom .camera h (setupLiveDaqBlock wl d) = h := by
  simp [setupLiveDaqBlock, heldFrom, lockDelta]

theorem heldFrom_daq_daqBlock (wl d : String) (h : Nat) :
    heldFrom .daq h (setupLiveDaqBlock wl d) = h := by
  simp [setupLiveDaqBlock, heldFrom, lockDelta]

theorem heldFrom_camera_daqBlocks (wl : String) (daqs : List String) (h : Nat) :
    heldFrom .camera h (daqs.flatMap (setupLiveDaqBlock wl)) = h := by
  induction daqs with
  | nil => rfl
  | cons d ds ih => rw [List.flatMap_cons, heldFrom_append, heldFrom_camera_daqBlock, ih]

theorem heldFrom_daq_daqBlocks (wl : String) (daqs : List String) (h : Nat) :
    heldFrom .daq h (daqs.flatMap (setupLiveDaqBlock wl)) = h := by
  induction daqs with
  | nil => rfl
  | cons d ds ih => rw [List.flatMap_cons, heldFrom_append, heldFrom_daq_daqBlock, ih]

theorem noDoubleHold_daqBlock (wl d : String) :
    noDoubleHold 0 1 (setupLiveDaqBlock wl d) = true := by
  simp [setupLiveDaqBlock, noDoubleHold, lockDelta]

theorem noDoubleHold_daqBlocks (wl : String) (daqs : List String) :
    noDoubleHold 0 1 (daqs.flatMap (setupLiveDaqBlock wl)) = true := by
  induction daqs with
  | nil => rfl
  | cons d ds ih =>
    rw [List.flatMap_cons, noDoubleHold_append, noDoubleHold_daqBlock,
      heldFrom_camera_daqBlock, heldFrom_daq_daqBlock, ih]
    rfl

theorem opsUnderLock_daqBlock (wl d : String) :
    opsUnderLock 0 1 (setupLiveDaqBlock wl d) = true := by
  simp [setupLiveDaqBlock, opsUnderLock, lockDelta]

theorem opsUnderLock_daqBlocks (wl : String) (daqs : List String) :
    opsUnderLock 0 1 (daqs.flatMap (setupLiveDaqBlock wl)) = true := by
  induction daqs with
  | nil => rfl
  | cons d ds ih =>
    rw [List.flatMap_cons, opsUnderLock_append, opsUnderLock_daqBlock,
      heldFrom_camera_daqBlock, heldFrom_daq_daqBlock, ih]
    rfl

theorem filter_nonlock_daqBlocks (wl : String) (daqs : List String) :
    (daqs.flatMap (setupLiveDaqBlock wl)).filter (fun e => !isLockEventB e)
      = daqs.flatMap (setupLiveDaqBlock wl) := by
  induction daqs with
  | nil => rfl
  | cons d ds ih =>
    rw [List.flatMap_cons, List.filter_append, ih]
    rfl

theorem heldFrom_camera_stopAlls (daqs : List String) (h : Nat) :
    heldFrom .camera h (daqs.map Event.stopAllDaq) = h := by
  induction daqs with
  | nil => rfl
  | cons d ds ih => simp [heldFrom, lockDelta, ih]

theorem heldFrom_daq_stopAlls (daqs : List String) (h : Nat) :
    heldFrom .daq h (daqs.map Event.stopAllDaq) = h := by
  induction daqs with
  | nil => rfl
  | cons d ds ih => simp [heldFrom, lockDelta, ih]

theorem noDoubleHold_stopAlls (daqs : List String) :
    noDoubleHold 0 1 (daqs.map Event.stopAllDaq) = true := by
  induction daqs with
  | nil => rfl
  | cons d ds ih => simp [noDoubleHold, lockDelta, ih]

theorem opsUnderLock_stopAlls (daqs : List String) :
    opsUnderLock 0 1 (daqs.map Event.stopAllDaq) = true := by
  induction daqs with
  | nil => rfl
  | cons d ds ih => simp [opsUnderLock, lockDelta, ih]

theorem filter_nonlock_stopAlls (daqs : List String) :
    (daqs.map Event.stopAllDaq).filter (fun e => !isLockEventB e)
      = daqs.map Event.stopAllDaq := by
  induction daqs with
  | nil => rfl
  | cons d ds ih => simp [List.filter_cons, isLockEventB, ih]

/-- Witness for C10 at the concrete input `frames = 0`, one daq. -/
theorem grab_frames_nonpositive_no_emission_witness :
    (0 : Int) ≤ 0 ∧
    (grabFramesTrace "cam0" 0 = [] ∧
      finiteSessionTrace "cam0" 0 ["daq0"] = dismantleLiveTrace "cam0" ["daq0"] ∧
      (finiteSessionTrace "cam0" 0 ["daq0"]).countP isAbortB = 1 ∧
      (finiteSessionTrace "cam0" 0 ["daq0"]).countP isStopAllB = ["daq0"].length) :=
  ⟨by decide, grab_frames_nonpositive_no_emission "cam0" 0 ["daq0"] (by decide)⟩

/-! ## Claims about the session controller -/

/-- Claim C4: `setup_live` performs, in order: worker creation, wiring
(`yielded` then `finished`), worker start, then `prepare()` and `start()`
under the camera lock alone, then per-daq waveform generation, loading and
`start_all()` under the daq lock alone; the camera lock and the daq lock are
never held simultaneously and both end up released. -/
theorem setup_live_order_and_lock_separation (cam : String) (frames : Option Int)
    (daqs : List String) (wl : String) :
    (setupLiveTrace cam frames daqs wl).filter (fun e => !isLockEventB e)
        = [Event.workerCreate cam, Event.connectYielded, Event.connectFinished,
           Event.workerStart, Event.prepare cam, Event.startCam cam frames]
          ++ daqs.flatMap (setupLiveDaqBlock wl) ∧
    opsUnderLock 0 0 (setupLiveTrace cam frames daqs wl) = true ∧
    noDoubleHold 0 0 (setupLiveTrace cam frames daqs wl) = true ∧
    heldAfter (setupLiveTrace cam frames daqs wl) .camera = 0 ∧
    heldAfter (setupLiveTrace cam frames daqs wl) .daq = 0 := by
  unfold setupLiveTrace
  refine ⟨?_, ?_, ?_, ?_, ?_⟩
  · rw [List.filter_append, List.filter_append, List.filter_append,
      List.filter_append, filter_nonlock_daqBlocks]
    simp [List.filter_cons, isLockEventB]
  · rw [show ([Event.workerCreate cam, .connectYielded, .connectFinished, .workerStart]
        ++ [.acquire .camera, .prepare cam, .startCam cam frames, .release .camera]
        ++ [Event.acquire .daq] ++ daqs.flatMap (setupLiveDaqBlock wl)
        ++ [Event.release .daq])
      = ([Event.workerCreate cam, .connectYielded, .connectFinished, .workerStart,
          .acquire .camera, .prepare cam, .startCam cam frames, .release .camera,
          .acquire .daq] ++ (daqs.flatMap (setupLiveDaqBlock wl)
            ++ [Event.release .daq])) from by simp]
    rw [opsUnderLock_append]
    have h1 : opsUnderLock 0 0
        [Event.workerCreate cam, .connectYielded, .connectFinished, .workerStart,
         .acquire .camera, .prepare cam, .startCam cam frames, .release .camera,
         .acquire .daq] = true := by
      simp [opsUnderLock, lockDelta]
    have h2 : heldFrom .camera 0
        [Event.workerCreate cam, .connectYielded, .connectFinished, .workerStart,
         .acquire .camera, .prepare cam, .startCam cam frames, .release .camera,
         .acquire .daq] = 0 := by
      simp [heldFrom, lockDelta]
    have h3 : heldFrom .daq 0
        [Event.workerCreate cam, .connectYielded, .connectFinished, .workerStart,
         .acquire .camera, .prepare cam, .startCam cam frames, .release .camera,
         .acquire .daq] = 1 := by
      simp [heldFrom, lockDelta]
    rw [h1, h2, h3, opsUnderLock_append, opsUnderLock_daqBlocks,
      heldFrom_camera_daqBlocks, heldFrom_daq_daqBlocks]
    rfl
  · rw [show ([Event.workerCreate cam, .connectYielded, .connectFinished, .workerStart]
        ++ [.acquire .camera, .prepare cam, .startCam cam frames, .release .camera]
        ++ [Event.acquire .daq] ++ daqs.flatMap (setupLiveDaqBlock wl)
        ++ [Event.release .daq])
      = ([Event.workerCreate cam, .connectYielded, .connectFinished, .workerStart,
          .acquire .camera, .prepare cam, .startCam cam frames, .release .camera,
          .acquire .daq] ++ (daqs.flatMap (setupLiveDaqBlock wl)
            ++ [Event.release .daq])) from by simp]
    rw [noDoubleHold_append]
    have h1 : noDoubleHold 0 0
        [Event.workerCreate cam, .connectYielded, .connectFinished, .workerStart,
         .acquire .camera, .prepare cam, .startCam cam frames, .release .camera,
         .acquire .daq] = true := by
      simp [noDoubleHold, lockDelta]
    have h2 : heldFrom .camera 0
        [Event.workerCreate cam, .connectYielded, .connectFinished, .workerStart,
         .acquire .camera, .prepare cam, .startCam cam frames, .release .camera,
         .acquire .daq] = 0 := by
      simp [heldFrom, lockDelta]
    have h3 : heldFrom .daq 0
        [Event.workerCreate cam, .connectYielded, .connectFinished, .workerStart,
         .acquire .camera, .prepare cam, .startCam cam frames, .release .camera,
         .acquire .daq] = 1 := by
      simp [heldFrom, lockDelta]
    rw [h1, h2, h3, noDoubleHold_append, noDoubleHold_daqBlocks,
      heldFrom_camera_daqBlocks, heldFrom_daq_daqBlocks]
    rfl
  · unfold heldAfter
    rw [heldFrom_append, heldFrom_append, heldFrom_append, heldFrom_append,
      heldFrom_camera_daqBlocks]
    rfl
  · unfold heldAfter
    rw [heldFrom_append, heldFrom_append, heldFrom_append, heldFrom_append,
      heldFrom_daq_daqBlocks]
    rfl

/-- Claim C5, counterexample: The claim says the worker handle is cleared by
teardown; but `dismantle_live` assigns no attribute of the controller, so
after teardown from a state holding worker 3 the handle still references
worker 3, not `None`. -/
theorem dismantle_live_does_not_clear_handle :
    ¬ ((dismantle_live "cam0" ["daq0"]
        { grab_frames_worker := some 3 }).1.grab_frames_worker = none) := by
  decide

/-- Claim C5, amended: `dismantle_live` aborts the camera under the camera
lock, then stops every daq under the daq lock, never holding both locks at
once and releasing both — but it does not clear the worker handle: the
controller state is returned unchanged, still referencing the terminated
worker. -/
theorem dismantle_live_locks_and_keeps_handle (cam : String) (daqs : List String)
    (s : ControllerState) :
    (dismantle_live cam daqs s).2.filter (fun e => !isLockEventB e)
        = Event.abortCam cam :: daqs.map Event.stopAllDaq ∧
    opsUnderLock 0 0 (dismantle_live cam daqs s).2 = true ∧
    noDoubleHold 0 0 (dismantle_live cam daqs s).2 = true ∧
    heldAfter (dismantle_live cam daqs s).2 .camera = 0 ∧
    heldAfter (dismantle_live cam daqs s).2 .daq = 0 ∧
    (dismantle_live cam daqs s).1 = s := by
  refine ⟨?_, ?_, ?_, ?_, ?_, rfl⟩
  · show ([Event.acquire .camera, .abortCam cam, .release .camera, .acquire .daq]
      ++ daqs.map Event.stopAllDaq ++ [Event.release .daq]).filter
        (fun e => !isLockEventB e) = _
    rw [List.filter_append, List.filter_append, filter_nonlock_stopAlls]
    simp [List.filter_cons, isLockEventB]
  · show opsUnderLock 0 0 ([Event.acquire .camera, .abortCam cam, .release .camera,
      .acquire .daq] ++ (daqs.map Event.stopAllDaq ++ [Event.release .daq])) = true
    rw [opsUnderLock_append]
    have h1 : opsUnderLock 0 0 [Event.acquire .camera, .abortCam cam,
        .release .camera, .acquire .daq] = true := by
      simp [opsUnderLock, lockDelta]
    have h2 : heldFrom .camera 0 [Event.acquire .camera, .abortCam cam,
        .release .camera, .acquire .daq] = 0 := by
      simp [heldFrom, lockDelta]
    have h3 : heldFrom .daq 0 [Event.acquire .camera, .abortCam cam,
        .release .camera, .acquire .daq] = 1 := by
      simp [heldFrom, lockDelta]
    rw [h1, h2, h3, opsUnderLock_append, opsUnderLock_stopAlls,
      heldFrom_camera_stopAlls, heldFrom_daq_stopAlls]
    rfl
  · show noDoubleHold 0 0 ([Event.acquire .camera, .abortCam cam, .release .camera,
      .acquire .daq] ++ (daqs.map Event.stopAllDaq ++ [Event.release .daq])) = true
    rw [noDoubleHold_append]
    have h1 : noDoubleHold 0 0 [Event.acquire .camera, .abortCam cam,
        .release .camera, .acquire .daq] = true := by
      simp [noDoubleHold, lockDelta]
    have h2 : heldFrom .camera 0 [Event.acquire .camera, .abortCam cam,
        .release .camera, .acquire .daq] = 0 := by
      simp [heldFrom, lockDelta]
    have h3 : heldFrom .daq 0 [Event.acquire .camera, .abortCam cam,
        .release .camera, .acquire .daq] = 1 := by
      simp [heldFrom, lockDelta]
    rw [h1, h2, h3, noDoubleHold_append, noDoubleHold_stopAlls,
      heldFrom_camera_stopAlls, heldFrom_daq_stopAlls]
    rfl
  · show heldFrom LockId.camera 0
      ([Event.acquire .camera, .abortCam cam, .release .camera, .acquire .daq]
        ++ (daqs.map Event.stopAllDaq ++ [Event.release .daq])) = 0
    rw [heldFrom_append, heldFrom_append, heldFrom_camera_stopAlls]
    rfl
  · show heldFrom LockId.daq 0
      ([Event.acquire .camera, .abortCam cam, .release .camera, .acquire .daq]
        ++ (daqs.map Event.stopAllDaq ++ [Event.release .daq])) = 0
    rw [heldFrom_append, heldFrom_append, heldFrom_daq_stopAlls]
    rfl

/-! ## Claim about the camera-widget state machine -/

/-- Claim C2, counterexample: It is not true that every reachable GUI state
has at most one active worker for the camera: press snapshot, let the 1000 ms
cooldown elapse while the first worker's blocking grab is still in progress,
press snapshot again — two workers are now grabbing from the same camera. -/
theorem two_workers_for_one_camera_reachable :
    ¬ (∀ acts : List GuiAction, (runGui acts).activeWorkers ≤ 1) := fun h =>
  absurd (h [.pressSnapshot, .advance 1000, .pressSnapshot]) (by decide)

/-- Claim C2, amended: What the disabled-control cooldown actually guarantees:
a press of a control during its cooldown window is a no-op (no new worker
starts, the state is unchanged), and an accepted snapshot press re-arms the
cooldown for 1000 ms while starting one new worker — it does not make
"at most one worker per camera" an invariant. -/
theorem cooldown_press_is_noop (s : GuiState) :
    (s.now < s.snapshotEnabledAt → stepGui s .pressSnapshot = s) ∧
    (s.now < s.liveEnabledAt → stepGui s .pressLive = s) ∧
    (s.snapshotEnabledAt ≤ s.now →
      (stepGui s .pressSnapshot).snapshotEnabledAt = s.now + 1000 ∧
      (stepGui s .pressSnapshot).activeWorkers = s.activeWorkers + 1) := by
  refine ⟨fun h => ?_, fun h => ?_, fun h => ?_⟩
  · simp [stepGui, h]
  · simp [stepGui, h]
  · rw [stepGui, if_neg (Nat.not_lt.mpr h)]
    exact ⟨rfl, rfl⟩

/-- Witness for C2's amended claim: in a state whose snapshot cooldown runs
until t = 10, a press at t = 5 changes nothing. -/
theorem cooldown_press_is_noop_witness :
    stepGui { now := 5, snapshotEnabledAt := 10, liveEnabledAt := 0,
              liveIsStop := false, activeWorkers := 1 } .pressSnapshot
      = { now := 5, snapshotEnabledAt := 10, liveEnabledAt := 0,
          liveIsStop := false, activeWorkers := 1 } :=
  (cooldown_press_is_noop _).1 (by decide)

/-! ## Claim about the stage position poller -/

/-- Claim C3: The poller's `with self.scanning_stage_lock and self.tiling_stage_lock`
enters the single object the Python `and` expression evaluates to — the
tiling-stage lock — so during the position read the scanning-stage lock is
NOT held (count 0) while the tiling-stage lock is (count 1); the lock is
released before the `(stage_name, position)` emission. -/
theorem stage_poller_acquires_only_tiling_lock :
    pyAnd (.lockRef .scanningStage) (.lockRef .tilingStage)
        = PyLockRef.lockRef .tilingStage ∧
    pollerAcquiredLocks = [LockId.tilingStage] ∧
    stagePollIter "stage0"
        = [.acquire .tilingStage, .readPosition "stage0", .release .tilingStage,
           .emitPosition "stage0"] ∧
    (stagePollIter "stage0").get? 1 = some (.readPosition "stage0") ∧
    heldAfter ((stagePollIter "stage0").take 1) .scanningStage = 0 ∧
    heldAfter ((stagePollIter "stage0").take 1) .tilingStage = 1 ∧
    heldAfter ((stagePollIter "stage0").take 3) .tilingStage = 0 ∧
    (stagePollIter "stage0").get? 3 = some (.emitPosition "stage0") := by
  decide

/-! ## Claim about the device property bridge -/

theorem refresh_foldl_values (post : String → Int) (ks : List String)
    (w : DevWidget) (k : String) :
    (ks.foldl (fun wi k' => writeWidget wi k' (post k')) w).values k
      = if k ∈ ks then post k else w.values k := by
  induction ks generalizing w with
  | nil => simp
  | cons a ks ih =>
    rw [List.foldl_cons, ih]
    by_cases hk : k ∈ ks
    · simp [hk]
    · by_cases hak : k = a
      · simp [hk, hak, writeWidget]
      · simp [hk, hak, writeWidget]

theorem refresh_foldl_tracked (post : String → Int) (ks : List String)
    (w : DevWidget) :
    (ks.foldl (fun wi k' => writeWidget wi k' (post k')) w).tracked = w.tracked := by
  induction ks generalizing w with
  | nil => rfl
  | cons a ks ih =>
    rw [List.foldl_cons, ih]
    rfl

/-- Claim C7: After a bridge edit writes the widget's value onto the device,
every tracked attribute displayed on the widget equals what the device
reports post-write — even when the device clamps the value or the write
side-effects other attributes (the device's `setAttr` is arbitrary). -/
theorem device_property_changed_round_trip (name : String) (dev : PyDevice)
    (w : DevWidget) (k : String) (hk : k ∈ w.tracked) :
    (device_property_changed name dev w).2.values k
        = (device_property_changed name dev w).1.attrs k ∧
    (device_property_changed name dev w).2.tracked = w.tracked := by
  unfold device_property_changed
  refine ⟨?_, refresh_foldl_tracked _ _ _⟩
  rw [refresh_foldl_values]
  simp [hk]

/-- Witness for C7: editing `exposure` to 500 on `clampDevice` (which clamps
to 100 and halves `frame_rate`), the displayed `exposure` equals the device's
post-write report. -/
theorem device_property_changed_round_trip_witness :
    "exposure" ∈ clampWidget.tracked ∧
    ((device_property_changed "exposure" clampDevice clampWidget).2.values "exposure"
        = (device_property_changed "exposure" clampDevice clampWidget).1.attrs "exposure" ∧
      (device_property_changed "exposure" clampDevice clampWidget).2.tracked
        = clampWidget.tracked) :=
  ⟨by decide,
   device_property_changed_round_trip "exposure" clampDevice clampWidget "exposure"
     (by decide)⟩

/-! ## Claim about the capability scan -/

/-- Claim C8: `scan_for_properties` includes getter-only properties: on a
device whose class has the read-only property `position` (no setter — the
`attr.fset is not None` filter is commented out in the source), the returned
record contains `position`, so not every enumerated attribute has a setter. -/
theorem scan_includes_setterless_property :
    roDevice.classAttr "position" = some (.prop false) ∧
    scan_for_properties roDevice = [("position", some 5)] := by
  decide

/-! ## Claim about the presentation sink -/

theorem getLayerData_update_of_found (key : String) (image : Int)
    (layers : List Layer)
    (h : (layers.find? (fun l => l.name = key)).isSome = true) :
    getLayerData
      (layers.map fun l => if l.name = key then { l with data := image } else l)
      key = some image := by
  induction layers with
  | nil => simp at h
  | cons l ls ih =>
    by_cases hl : l.name = key
    · simp [getLayerData, List.find?_cons, hl]
    · have hd : (decide (l.name = key)) = false := by simp [hl]
      rw [List.find?_cons, hd] at h
      simp only [getLayerData, List.map_cons, if_neg hl]
      rw [List.find?_cons, hd]
      exact ih h

theorem getLayerData_append_new (key : String) (image : Int) (layers : List Layer)
    (hf : layers.find? (fun l => l.name = key) = none) :
    getLayerData (layers ++ [⟨key, image⟩]) key = some image := by
  induction layers with
  | nil => simp [getLayerData, List.find?_cons]
  | cons l ls ih =>
    by_cases hl : l.name = key
    · exfalso
      rw [List.find?_cons, show (decide (l.name = key)) = true from by simp [hl]] at hf
      cases hf
    · have hd : (decide (l.name = key)) = false := by simp [hl]
      rw [List.find?_cons, hd] at hf
      simp only [getLayerData, List.cons_append]
      rw [List.find?_cons, hd]
      exact ih hf

/-- Claim C9: When the display entry for the frame's key is absent, the
`KeyError` is recovered locally: the entry is lazily created (appended) and
no error leaves the sink (`update_layer` is total); when it exists, its
buffer is updated in place, preserving the set of layer names; in both cases
the entry for the key afterwards holds the new frame. -/
theorem update_layer_recovers_missing_entry (layers : List Layer) (image : Int)
    (cam wl : String) :
    getLayerData (update_layer layers image cam wl) (layerKey cam wl) = some image ∧
    (tryUpdateExisting layers image (layerKey cam wl) = .error () →
      update_layer layers image cam wl = layers ++ [⟨layerKey cam wl, image⟩]) ∧
    (∀ ls, tryUpdateExisting layers image (layerKey cam wl) = .ok ls →
      update_layer layers image cam wl = ls ∧
      ls.map Layer.name = layers.map Layer.name) := by
  rcases hf : layers.find? (fun l => l.name = layerKey cam wl) with _ | l
  · have hupd : update_layer layers image cam wl
        = layers ++ [⟨layerKey cam wl, image⟩] := by
      unfold update_layer tryUpdateExisting
      rw [hf]
    have htry : tryUpdateExisting layers image (layerKey cam wl) = .error () := by
      unfold tryUpdateExisting
      rw [hf]
    refine ⟨?_, fun _ => hupd, fun ls hls => ?_⟩
    · rw [hupd]
      exact getLayerData_append_new _ _ _ hf
    · rw [htry] at hls
      cases hls
  · have htry : tryUpdateExisting layers image (layerKey cam wl)
        = .ok (layers.map fun l =>
            if l.name = layerKey cam wl then { l with data := image } else l) := by
      unfold tryUpdateExisting
      rw [hf]
    have hupd : update_layer layers image cam wl
        = layers.map fun l =>
            if l.name = layerKey cam wl then { l with data := image } else l := by
      unfold update_layer tryUpdateExisting
      rw [hf]
    refine ⟨?_, fun hc => ?_, fun ls hls => ?_⟩
    · rw [hupd]
      exact getLayerData_update_of_found _ _ _ (by rw [hf]; rfl)
    · rw [htry] at hc
      cases hc
    · rw [htry] at hls
      cases hls
      refine ⟨hupd, ?_⟩
      rw [List.map_map]
      refine List.map_congr_left fun a _ => ?_
      by_cases ha : a.name = layerKey cam wl <;> simp [ha, Function.comp]

/-- Witness for C9: with no layers yet, the frame's `KeyError` is recovered
by creating the entry. -/
theorem update_layer_recovers_missing_entry_witness :
    update_layer [] 7 "cam0" "488" = [⟨layerKey "cam0" "488", 7⟩] :=
  (update_layer_recovers_missing_entry [] 7 "cam0" "488").2.1 rfl

end ExaSpim
